import Mathlib

/-!
Shallow embedding of the Audisto API v2 client (audisto_client.py and
models.py) and proofs about its behaviour.

Conventions of the embedding:
* Decoded JSON bodies are modelled by the inductive type Json below.
  JSON numbers are modelled as integers; no claim involves fractional
  numbers.
* Python exceptions are modelled by the Except monad with an error kind
  naming the exception class that escapes.
* The network is modelled by a caller-supplied total function from the
  request parameters to the decoded body of a successful HTTP exchange;
  every definition additionally reports the number of network calls it
  performed.
* The unbounded while-loop of iter_chunked is embedded with explicit
  fuel; running out of fuel is a distinguished outcome, so an
  Outcome.ok result witnesses natural termination of the loop.
-/

/-- Kind of Python exception escaping an operation. -/
inductive PyErr where
  | valueError
  | runtimeError
  | typeError
  | validationError
deriving Repr, DecidableEq

/-- Pagination metadata of a chunked response, from models.ChunkMeta:
total, page and size are all optional. In audisto_client.iter_chunked the
metadata is read with chunk_meta.get, so a missing "chunk" key behaves as
a metadata object with all three fields absent. -/
structure ChunkMeta where
  total : Option Int
  page : Option Int
  size : Option Int
deriving Repr, DecidableEq

/-- Decoded body of one chunked response, as iter_chunked consumes it:
either not a mapping at all (line 164: isinstance check fails), or a
mapping carrying an items list (absent key read as [] via
data.get with default, line 167) and chunk metadata (absent key read as
the empty mapping, line 173). Item payloads stay abstract in the type
parameter. -/
inductive ChunkBody (α : Type) where
  | notMapping
  | mapping (items : List α) (chunk : ChunkMeta)
deriving Repr, DecidableEq

/-- Decision taken by iter_chunked after yielding the items of one page. -/
inductive PageDecision where
  | stop
  | continueAt (next : Int)
deriving Repr, DecidableEq

/-- Page value used by the loop bookkeeping of iter_chunked after a page:
line 176 replaces the local counter by the server-reported page when the
metadata carries one (page = chunk_meta.get with the local page as
default). -/
def effectivePage (meta : ChunkMeta) (localPage : Int) : Int :=
  meta.page.getD localPage

/-- Termination decision of iter_chunked, lines 176-182: after the
items of a page were yielded, stop when the page had no items, or the
metadata carries no total, or it carries a size and
(page + 1) * size >= total for the effective page; otherwise continue at
the effective page plus one. -/
def codeDecision {α : Type} (items : List α) (meta : ChunkMeta) (localPage : Int) :
    PageDecision :=
  let page := effectivePage meta localPage
  if items.isEmpty then PageDecision.stop
  else
    match meta.total with
    | none => PageDecision.stop
    | some t =>
      match meta.size with
      | some s =>
        if (page + 1) * s ≥ t then PageDecision.stop
        else PageDecision.continueAt (page + 1)
      | none => PageDecision.continueAt (page + 1)

/-- Termination policy written from the words of the specification:
stop if the page yielded zero items; stop if the chunk metadata carries
no total; stop if the metadata carries a size and (page + 1) * size
reaches total, the page value being the server-reported one if present,
else the locally tracked counter; otherwise advance to page + 1 and
continue. Stated as its own definition so the code-derived decision can
be compared against it. -/
def specTerminationPolicy {α : Type} (items : List α) (meta : ChunkMeta)
    (localPage : Int) : PageDecision :=
  let page := meta.page.getD localPage
  if items.length = 0 then PageDecision.stop
  else
    match meta.total, meta.size with
    | none, _ => PageDecision.stop
    | some t, some s =>
      if (page + 1) * s ≥ t then PageDecision.stop
      else PageDecision.continueAt (page + 1)
    | some _, none => PageDecision.continueAt (page + 1)

/-- Outcome of running the chunked iteration to exhaustion. -/
inductive Outcome where
  | ok
  | err (e : PyErr)
  | outOfFuel
deriving Repr, DecidableEq

/-- Result of consuming the chunked iterator: every item that was
yielded in order, the number of network calls issued, and how the
iteration ended. -/
structure RunResult (α : Type) where
  yielded : List α
  calls : Nat
  outcome : Outcome
deriving Repr, DecidableEq

/-- Body of the while-loop of iter_chunked, lines 154-182. Each round
issues one network call with the current page and chunksize as the chunk
and chunksize query parameters; a non-mapping body raises RuntimeError
with nothing yielded from that page; otherwise the items of the page are
yielded before any further network call, and the loop stops or continues
according to codeDecision. -/
def iterLoop {α : Type} (fetch : Int → Int → ChunkBody α) (chunksize : Int) :
    Int → Nat → RunResult α
  | _, 0 => ⟨[], 0, Outcome.outOfFuel⟩
  | page, fuel + 1 =>
    match fetch page chunksize with
    | ChunkBody.notMapping => ⟨[], 1, Outcome.err PyErr.runtimeError⟩
    | ChunkBody.mapping items meta =>
      match codeDecision items meta page with
      | PageDecision.stop => ⟨items, 1, Outcome.ok⟩
      | PageDecision.continueAt next =>
        let r := iterLoop fetch chunksize next fuel
        ⟨items ++ r.yielded, r.calls + 1, r.outcome⟩

/-- Full consumption of the generator body of iter_chunked, lines
146-182: first the chunksize bound check of line 147 (ValueError, zero
network calls, on violation), then the paging loop starting at page 0. -/
def iter_chunked {α : Type} (fetch : Int → Int → ChunkBody α) (chunksize : Int)
    (fuel : Nat) : RunResult α :=
  if chunksize < 1 ∨ chunksize > 10000 then ⟨[], 0, Outcome.err PyErr.valueError⟩
  else iterLoop fetch chunksize 0 fuel

/-- Decoded JSON value as Python json.loads produces it. JSON numbers are
modelled as integers; object keys are strings and assumed distinct, as
json.loads yields. -/
inductive Json where
  | null
  | bool (b : Bool)
  | num (n : Int)
  | str (s : String)
  | arr (xs : List Json)
  | obj (fields : List (String × Json))

/-- Lookup of a key in a decoded JSON object. -/
def lookupField : List (String × Json) → String → Option Json
  | [], _ => none
  | (k, v) :: rest, key => if k = key then some v else lookupField rest key

/-- Validation of a pydantic Optional[int] field with default None: an
absent key or null validates to None, an integer validates to itself,
any other shape is a validation failure. Lax numeric coercions pydantic
may additionally accept (such as integral strings) fall outside every
shape the claims exercise and are modelled as failures. -/
def fieldOptInt : Option Json → Option (Option Int)
  | none => some none
  | some Json.null => some none
  | some (Json.num n) => some (some n)
  | some _ => none

/-- Validation of a pydantic Optional[str] field with default None,
analogous to fieldOptInt. -/
def fieldOptStr : Option Json → Option (Option String)
  | none => some none
  | some Json.null => some none
  | some (Json.str s) => some (some s)
  | some _ => none

/-- Crawl status item, from models.CrawlStatus. -/
structure CrawlStatus where
  id : Option Int
  domain : Option String
  status : Option String
deriving Repr, DecidableEq

/-- Crawl status response, from models.CrawlStatusResponse. -/
structure CrawlStatusResponse where
  items : List CrawlStatus
deriving Repr, DecidableEq

/-- Crawl summary, from models.CrawlSummary. -/
structure CrawlSummary where
  id : Option Int
  domain : Option String
  crawled_pages : Option Int
  max_depth : Option Int
  start_time : Option String
deriving Repr, DecidableEq

/-- Pydantic validation of one element of the items list: the element
must be a mapping; its id, domain and status fields are validated as
optional typed fields; unknown keys are ignored, as pydantic does by
default. -/
def parseCrawlStatusItem (j : Json) : Option CrawlStatus :=
  match j with
  | Json.obj fs =>
    match fieldOptInt (lookupField fs "id"),
          fieldOptStr (lookupField fs "domain"),
          fieldOptStr (lookupField fs "status") with
    | some i, some d, some st => some ⟨i, d, st⟩
    | _, _, _ => none
  | _ => none

/-- Elementwise validation of the items list; the first invalid element
fails the whole validation. -/
def parseItemList : List Json → Option (List CrawlStatus)
  | [] => some []
  | j :: rest =>
    match parseCrawlStatusItem j, parseItemList rest with
    | some c, some cs => some (c :: cs)
    | _, _ => none

/-- Pydantic validation of the items field of CrawlStatusResponse: the
value must be a list and every element must validate as a CrawlStatus.
This is the one validation performed both by CrawlStatusResponse(**data)
on a mapping body and by CrawlStatusResponse(items=data) on a bare list
body. -/
def validateItemsField (j : Json) : Option (List CrawlStatus) :=
  match j with
  | Json.arr xs => parseItemList xs
  | _ => none

/-- Pydantic validation of CrawlSummary(**data): the body must be a
mapping and each declared field validates as an optional typed field;
unknown keys are ignored. -/
def parseCrawlSummary (j : Json) : Option CrawlSummary :=
  match j with
  | Json.obj fs =>
    match fieldOptInt (lookupField fs "id"),
          fieldOptStr (lookupField fs "domain"),
          fieldOptInt (lookupField fs "crawled_pages"),
          fieldOptInt (lookupField fs "max_depth"),
          fieldOptStr (lookupField fs "start_time") with
    | some a, some b, some c, some d, some e => some ⟨a, b, c, d, e⟩
    | _, _, _, _, _ => none
  | _ => none

/-- Conversion of one sequence element to a key-value pair, as Python
dict(x) performs on each element of a non-mapping iterable: a
two-element sequence becomes a pair (a two-character string or a
two-key mapping iterates as two items, so also qualifies), any other
length is a ValueError, and a non-iterable element is a TypeError.
Python additionally accepts non-string hashable keys here, producing a
mapping our string-keyed Json.obj cannot represent; no decoded body a
claim exercises reaches that case, and it is mapped to TypeError. -/
def pyPair (j : Json) : Except PyErr (String × Json) :=
  match j with
  | Json.arr [Json.str k, v] => Except.ok (k, v)
  | Json.arr [_, _] => Except.error PyErr.typeError
  | Json.arr _ => Except.error PyErr.valueError
  | Json.str s =>
    if s.length = 2 then Except.ok (s.take 1, Json.str (s.drop 1))
    else Except.error PyErr.valueError
  | Json.obj [(k1, _), (k2, _)] => Except.ok (k1, Json.str k2)
  | Json.obj _ => Except.error PyErr.valueError
  | _ => Except.error PyErr.typeError

/-- Conversion of a whole sequence to key-value pairs, stopping at the
first failing element as Python dict(x) does. -/
def pyPairList : List Json → Except PyErr (List (String × Json))
  | [] => Except.ok []
  | j :: rest =>
    match pyPair j with
    | Except.ok kv => (pyPairList rest).map (fun r => kv :: r)
    | Except.error e => Except.error e

/-- Python dict(x) on a decoded JSON value: a mapping is copied; a
sequence is converted elementwise to key-value pairs; a string iterates
over its characters, so only the empty string succeeds (each character
is a length-one string, a ValueError); numbers, booleans and null are
not iterable, a TypeError. -/
def pyDict (j : Json) : Except PyErr Json :=
  match j with
  | Json.obj fs => Except.ok (Json.obj fs)
  | Json.arr xs => (pyPairList xs).map Json.obj
  | Json.str s =>
    if s.isEmpty then Except.ok (Json.obj [])
    else Except.error PyErr.valueError
  | _ => Except.error PyErr.typeError

/-- Result of get_crawl_status_v2 on a successful HTTP exchange: either
the validated model or a raw mapping. -/
inductive StatusResult where
  | typed (r : CrawlStatusResponse)
  | raw (j : Json)

/-- Body handling of get_crawl_status_v2, lines 93-105, applied to the
decoded body of a successful HTTP exchange. A mapping with an items key
is validated; on validation failure the except handler returns the
mapping itself. A bare list is validated as the items field; on failure
the except handler evaluates dict(data), whose own exception escapes. A
body of any other shape reaches line 101, where dict(data) is evaluated
inside the try block; if it fails, the except handler evaluates
dict(data) again and the same exception escapes uncaught. -/
def get_crawl_status_v2 (data : Json) : Except PyErr StatusResult :=
  match data with
  | Json.obj fs =>
    match lookupField fs "items" with
    | some itemsJson =>
      match validateItemsField itemsJson with
      | some items => Except.ok (StatusResult.typed ⟨items⟩)
      | none => Except.ok (StatusResult.raw (Json.obj fs))
    | none => Except.ok (StatusResult.raw (Json.obj fs))
  | Json.arr xs =>
    match validateItemsField (Json.arr xs) with
    | some items => Except.ok (StatusResult.typed ⟨items⟩)
    | none =>
      match pyDict (Json.arr xs) with
      | Except.ok d => Except.ok (StatusResult.raw d)
      | Except.error e => Except.error e
  | other =>
    match pyDict other with
    | Except.ok d => Except.ok (StatusResult.raw d)
    | Except.error e => Except.error e

/-- Python value passed as the crawl_id argument of
get_crawl_summary_v2. Distinct non-integer shapes beyond these behave
identically under the isinstance check. -/
inductive PyVal where
  | int (n : Int)
  | bool (b : Bool)
  | str (s : String)
  | pyNone
deriving Repr, DecidableEq

/-- Python isinstance(x, int): true for integers and for booleans, since
bool is a subclass of int. -/
def isInstanceInt : PyVal → Bool
  | PyVal.int _ => true
  | PyVal.bool _ => true
  | _ => false

/-- Integer value of a Python int-like value (booleans count as 0 / 1);
irrelevant default for other shapes, which never pass the isinstance
check. -/
def pyIntVal : PyVal → Int
  | PyVal.int n => n
  | PyVal.bool b => if b then 1 else 0
  | _ => 0

/-- get_crawl_summary_v2, lines 116-129: the argument check of line 116
raises ValueError before any network call; otherwise one authenticated
GET is issued and the decoded body is validated as a CrawlSummary. The
pair component counts network calls. -/
def get_crawl_summary_v2 (crawl_id : PyVal) (fetch : Int → Json) :
    Except PyErr CrawlSummary × Nat :=
  if isInstanceInt crawl_id = false ∨ pyIntVal crawl_id < 0 then
    (Except.error PyErr.valueError, 0)
  else
    match parseCrawlSummary (fetch (pyIntVal crawl_id)) with
    | some s => (Except.ok s, 1)
    | none => (Except.error PyErr.validationError, 1)

/-- Python truthiness of an optional string: None and the empty string
are falsy, every other string is truthy. -/
def truthyStr : Option String → Bool
  | none => false
  | some s => !decide (s = "")

/-- Python a or b on optional strings: the left operand if truthy, else
the right operand. -/
def pyOr (a b : Option String) : Option String :=
  if truthyStr a then a else b

/-- Storage step of AudistoClient.__init__, lines 55-60: given the two
resolved credential halves, the auth value is their pair when both are
truthy, else None. -/
def mkAuthFrom (fk fp : Option String) : Option (String × String) :=
  if truthyStr fk && truthyStr fp then
    match fk, fp with
    | some k, some p => some (k, p)
    | _, _ => none
  else none

/-- Credential resolution and storage of AudistoClient.__init__, lines
51-60, reduced to its four inputs: the two constructor arguments and the
two environment variables. Each credential half is resolved as
argument-or-environment with Python truthiness (lines 52-53), then the
pair is stored when both halves are truthy. -/
def mkAuth (argKey argPw envKey envPw : Option String) :
    Option (String × String) :=
  mkAuthFrom (pyOr argKey envKey) (pyOr argPw envPw)

/-- A resolved credential half counts as absent when it is None or the
empty string. -/
def credAbsent (o : Option String) : Prop :=
  o = none ∨ o = some ""

/-- Suspended generator returned by calling iter_chunked. The function
body of iter_chunked contains yield statements, so in Python a call
merely captures the arguments and builds a generator object; none of the
body, the chunksize check included, runs at call time. -/
structure ChunkedGenerator (α : Type) where
  fetch : Int → Int → ChunkBody α
  chunksize : Int

/-- Invocation of the generator function iter_chunked: always returns a
generator immediately, for any arguments, and can raise nothing. -/
def iter_chunked_call {α : Type} (fetch : Int → Int → ChunkBody α)
    (chunksize : Int) : Except PyErr (ChunkedGenerator α) :=
  Except.ok ⟨fetch, chunksize⟩

/-- Consuming the suspended generator runs the body of iter_chunked. -/
def ChunkedGenerator.consume {α : Type} (g : ChunkedGenerator α) (fuel : Nat) :
    RunResult α :=
  iter_chunked g.fetch g.chunksize fuel

/-! Helper lemmas shared by the claim theorems. -/

/-- Python truthiness of an optional string is false exactly for the two
absent shapes, None and the empty string. -/
theorem truthyStr_eq_false (o : Option String) :
    truthyStr o = false ↔ credAbsent o := by
  cases o with
  | none => simp [truthyStr, credAbsent]
  | some s => simp [truthyStr, credAbsent]

/-- Characterisation of the credential storage step: the stored value is
None exactly when a resolved half is absent, and a stored pair never
contains an empty string. -/
theorem mkAuthFrom_spec (fk fp : Option String) :
    (mkAuthFrom fk fp = none ↔ (credAbsent fk ∨ credAbsent fp))
    ∧ (∀ k p, mkAuthFrom fk fp = some (k, p) → ¬ k = "" ∧ ¬ p = "") := by
  constructor
  · rcases hk : truthyStr fk with _ | _ <;> rcases hp : truthyStr fp with _ | _ <;>
      simp [mkAuthFrom, hk, hp, ← truthyStr_eq_false] <;>
      cases fk <;> cases fp <;> simp_all [truthyStr]
  · intro k p hkp
    rcases hk : truthyStr fk with _ | _ <;> rcases hp : truthyStr fp with _ | _ <;>
      simp [mkAuthFrom, hk, hp] at hkp <;>
      cases fk <;> cases fp <;> simp_all [truthyStr]

/-- The chunksize bound check of iter_chunked line 147: an out-of-range
chunksize yields ValueError with zero network calls and nothing yielded. -/
theorem iter_chunked_invalid_chunksize {α : Type} (fetch : Int → Int → ChunkBody α)
    (chunksize : Int) (fuel : Nat) (h : chunksize < 1 ∨ chunksize > 10000) :
    iter_chunked fetch chunksize fuel = ⟨[], 0, Outcome.err PyErr.valueError⟩ := by
  unfold iter_chunked
  rw [if_pos h]

/-- Concrete two-page chunked server of the specification example: page
0 answers three total items in chunks of size two with items 1 and 2,
page 1 answers the remaining item 3. -/
def twoPageFetch : Int → Int → ChunkBody Int := fun page _ =>
  if page = 0 then ChunkBody.mapping [1, 2] ⟨some 3, some 0, some 2⟩
  else if page = 1 then ChunkBody.mapping [3] ⟨some 3, some 1, some 2⟩
  else ChunkBody.notMapping

/-! Claim theorems. -/

/-- C1: the termination decision of iter_chunked after each page follows
exactly the stated policy: it equals the policy written from the words
of the specification; a zero-item page always stops, whatever the
metadata says; and when the metadata carries both a total and a size and
the page yielded items, the iterator stops exactly when
(page + 1) * size reaches total, the page value being the
server-reported one if present, else the locally tracked counter. -/
theorem C1_termination_policy :
    (∀ (α : Type) (items : List α) (meta : ChunkMeta) (localPage : Int),
        codeDecision items meta localPage = specTerminationPolicy items meta localPage)
    ∧ (∀ (meta : ChunkMeta) (localPage : Int),
        codeDecision ([] : List Nat) meta localPage = PageDecision.stop)
    ∧ (∀ (α : Type) (items : List α) (meta : ChunkMeta) (localPage : Int) (s t : Int),
        meta.size = some s → meta.total = some t → items ≠ [] →
        (codeDecision items meta localPage = PageDecision.stop ↔
          t ≤ (meta.page.getD localPage + 1) * s)) := by
  refine ⟨?_, ?_, ?_⟩
  · intro α items meta localPage
    obtain ⟨total, page, size⟩ := meta
    cases items <;> cases total <;> cases size <;>
      simp [codeDecision, specTerminationPolicy, effectivePage]
  · intro meta localPage
    simp [codeDecision]
  · intro α items meta localPage s t hs ht hne
    obtain ⟨total, page, size⟩ := meta
    simp only [ChunkMeta.size] at hs
    simp only [ChunkMeta.total] at ht
    subst hs ht
    cases items with
    | nil => exact absurd rfl hne
    | cons a as =>
      simp only [codeDecision, effectivePage, List.isEmpty_cons]
      split
      · simp_all
      · constructor
        · intro h
          simp_all
        · intro h
          simp_all

/-- Witness for C1 at a concrete last page: one item, total 2, page 0,
size 2, so (0 + 1) * 2 reaches the total and the decision is stop. -/
theorem C1_termination_policy_witness :
    codeDecision [(1 : Nat)] (ChunkMeta.mk (some 2) (some 0) (some 2)) 0 =
        PageDecision.stop ↔
      (2 : Int) ≤ ((ChunkMeta.mk (some 2) (some 0) (some 2)).page.getD 0 + 1) * 2 :=
  C1_termination_policy.2.2 Nat [1] (ChunkMeta.mk (some 2) (some 0) (some 2)) 0 2 2
    rfl rfl (by decide)

/-- C2 records a code bug: on the scalar decoded body 42 the fallback of
get_crawl_status_v2 evaluates dict(42), which raises TypeError inside
the try block and again inside the except handler, so the operation
raises instead of returning the raw body as the claim states. -/
theorem C2_scalar_body_raises :
    get_crawl_status_v2 (Json.num 42) = Except.error PyErr.typeError := rfl

/-- C3: on the two-page response sequence of the specification example
the iterator yields exactly the three items 1, 2, 3 in order and issues
exactly two network calls. -/
theorem C3_two_page_example :
    iter_chunked twoPageFetch 2 10 = ⟨[1, 2, 3], 2, Outcome.ok⟩ := by
  decide

/-- C4: for every chunk size outside [1, 10000] the chunked iteration
fails with ValueError before any network call and issues zero network
calls. -/
theorem C4_chunksize_validation :
    ∀ (α : Type) (fetch : Int → Int → ChunkBody α) (chunksize : Int) (fuel : Nat),
      (chunksize < 1 ∨ chunksize > 10000) →
      iter_chunked fetch chunksize fuel = ⟨[], 0, Outcome.err PyErr.valueError⟩ := by
  intro α fetch chunksize fuel h
  exact iter_chunked_invalid_chunksize fetch chunksize fuel h

/-- Witness for C4 at chunksize 10001. -/
theorem C4_chunksize_validation_witness :
    iter_chunked (fun _ _ => (ChunkBody.notMapping : ChunkBody Int)) 10001 5 =
      ⟨[], 0, Outcome.err PyErr.valueError⟩ :=
  C4_chunksize_validation Int (fun _ _ => ChunkBody.notMapping) 10001 5
    (Or.inr (by decide))

/-- C5: a crawl identifier that is negative or not an integer makes
get_crawl_summary_v2 fail with ValueError and zero network calls, and a
non-negative integer identifier never produces ValueError. -/
theorem C5_crawl_id_validation : ∀ (v : PyVal) (fetch : Int → Json),
    ((isInstanceInt v = false ∨ pyIntVal v < 0) →
      get_crawl_summary_v2 v fetch = (Except.error PyErr.valueError, 0))
    ∧ (isInstanceInt v = true → 0 ≤ pyIntVal v →
      (get_crawl_summary_v2 v fetch).1 ≠ Except.error PyErr.valueError) := by
  intro v fetch
  constructor
  · intro h
    unfold get_crawl_summary_v2
    rw [if_pos h]
  · intro hinst hnonneg
    unfold get_crawl_summary_v2
    rw [if_neg]
    · cases parseCrawlSummary (fetch (pyIntVal v)) <;> simp
    · push_neg
      exact ⟨by simp [hinst], by omega⟩

/-- Witness for C5: a string identifier fails with ValueError and zero
calls; the identifier 5 never produces ValueError. -/
theorem C5_crawl_id_validation_witness :
    get_crawl_summary_v2 (PyVal.str "x") (fun _ => Json.null) =
      (Except.error PyErr.valueError, 0)
    ∧ (get_crawl_summary_v2 (PyVal.int 5) (fun _ => Json.null)).1 ≠
        Except.error PyErr.valueError :=
  ⟨(C5_crawl_id_validation (PyVal.str "x") (fun _ => Json.null)).1 (Or.inl rfl),
   (C5_crawl_id_validation (PyVal.int 5) (fun _ => Json.null)).2 rfl (by decide)⟩

/-- C6: a chunked page whose decoded body is not a mapping makes the
iteration fail with RuntimeError and yield no items from that page, both
for the loop at an arbitrary page and for the whole operation when its
first page is malformed. -/
theorem C6_non_mapping_page :
    ∀ (α : Type) (fetch : Int → Int → ChunkBody α) (chunksize page : Int) (fuel : Nat),
      fetch page chunksize = ChunkBody.notMapping →
      (iterLoop fetch chunksize page (fuel + 1) =
          ⟨[], 1, Outcome.err PyErr.runtimeError⟩
        ∧ (1 ≤ chunksize → chunksize ≤ 10000 → page = 0 →
            iter_chunked fetch chunksize (fuel + 1) =
              ⟨[], 1, Outcome.err PyErr.runtimeError⟩)) := by
  intro α fetch chunksize page fuel h
  have hloop : iterLoop fetch chunksize page (fuel + 1) =
      ⟨[], 1, Outcome.err PyErr.runtimeError⟩ := by
    unfold iterLoop
    rw [h]
  refine ⟨hloop, ?_⟩
  intro h1 h2 hp
  unfold iter_chunked
  rw [if_neg]
  · subst hp
    exact hloop
  · push_neg
    exact ⟨by omega, by omega⟩

/-- Witness for C6 at a server that always answers a non-mapping body. -/
theorem C6_non_mapping_page_witness :
    iterLoop (fun _ _ => (ChunkBody.notMapping : ChunkBody Int)) 100 0 1 =
      ⟨[], 1, Outcome.err PyErr.runtimeError⟩
    ∧ iter_chunked (fun _ _ => (ChunkBody.notMapping : ChunkBody Int)) 100 1 =
      ⟨[], 1, Outcome.err PyErr.runtimeError⟩ := by
  have h := C6_non_mapping_page Int (fun _ _ => ChunkBody.notMapping) 100 0 0 rfl
  exact ⟨h.1, h.2 (by decide) (by decide) rfl⟩

/-- C7: a bare list body whose elements validate as items produces
exactly the same validated CrawlStatusResponse as the mapping body that
carries the same list under the items key. -/
theorem C7_bare_list_wraps : ∀ (xs : List Json) (items : List CrawlStatus),
    validateItemsField (Json.arr xs) = some items →
    get_crawl_status_v2 (Json.arr xs) = Except.ok (StatusResult.typed ⟨items⟩)
    ∧ get_crawl_status_v2 (Json.obj [("items", Json.arr xs)]) =
        Except.ok (StatusResult.typed ⟨items⟩) := by
  intro xs items h
  constructor
  · simp [get_crawl_status_v2, h]
  · simp [get_crawl_status_v2, lookupField, h]

/-- Witness for C7 at the one-item example of the specification. -/
theorem C7_bare_list_wraps_witness :
    get_crawl_status_v2
        (Json.arr [Json.obj [("id", Json.num 1), ("domain", Json.str "example.com"),
          ("status", Json.str "finished")]]) =
      Except.ok (StatusResult.typed ⟨[⟨some 1, some "example.com", some "finished"⟩]⟩)
    ∧ get_crawl_status_v2
        (Json.obj [("items", Json.arr [Json.obj [("id", Json.num 1),
          ("domain", Json.str "example.com"), ("status", Json.str "finished")]])]) =
      Except.ok (StatusResult.typed ⟨[⟨some 1, some "example.com", some "finished"⟩]⟩) :=
  C7_bare_list_wraps _ _ rfl

/-- C8: the stored authentication value is None exactly when a resolved
credential half (constructor argument, else environment) is None or the
empty string, and a stored pair never contains an empty string. -/
theorem C8_credential_absence : ∀ (argKey argPw envKey envPw : Option String),
    (mkAuth argKey argPw envKey envPw = none ↔
      (credAbsent (pyOr argKey envKey) ∨ credAbsent (pyOr argPw envPw)))
    ∧ (∀ k p, mkAuth argKey argPw envKey envPw = some (k, p) →
        ¬ k = "" ∧ ¬ p = "") := by
  intro argKey argPw envKey envPw
  exact mkAuthFrom_spec (pyOr argKey envKey) (pyOr argPw envPw)

/-- Witness for C8 at explicit constructor credentials. -/
theorem C8_credential_absence_witness :
    (mkAuth (some "k") (some "p") none none = none ↔
      (credAbsent (pyOr (some "k") none) ∨ credAbsent (pyOr (some "p") none)))
    ∧ (¬ "k" = "" ∧ ¬ "p" = "") := by
  have h := C8_credential_absence (some "k") (some "p") none none
  exact ⟨h.1, h.2 "k" "p" rfl⟩

/-- C9: a mapping body without an items key is returned unchanged as the
raw untyped result, with no validation attempted and nothing raised. -/
theorem C9_mapping_without_items : ∀ (fs : List (String × Json)),
    lookupField fs "items" = none →
    get_crawl_status_v2 (Json.obj fs) = Except.ok (StatusResult.raw (Json.obj fs)) := by
  intro fs h
  simp [get_crawl_status_v2, h]

/-- Witness for C9 at a mapping carrying only a status key. -/
theorem C9_mapping_without_items_witness :
    get_crawl_status_v2 (Json.obj [("status", Json.str "ok")]) =
      Except.ok (StatusResult.raw (Json.obj [("status", Json.str "ok")])) :=
  C9_mapping_without_items [("status", Json.str "ok")] rfl

/-- C10: invoking iter_chunked always returns a suspended generator
immediately without raising, for any arguments, and the out-of-range
chunksize failure only surfaces once the consumer drives the generator,
still with zero network calls. -/
theorem C10_lazy_invocation :
    ∀ (α : Type) (fetch : Int → Int → ChunkBody α) (chunksize : Int),
      iter_chunked_call fetch chunksize = Except.ok ⟨fetch, chunksize⟩
      ∧ (∀ fuel : Nat, (chunksize < 1 ∨ chunksize > 10000) →
          (ChunkedGenerator.mk fetch chunksize).consume fuel =
            ⟨[], 0, Outcome.err PyErr.valueError⟩) := by
  intro α fetch chunksize
  refine ⟨rfl, ?_⟩
  intro fuel h
  exact iter_chunked_invalid_chunksize fetch chunksize fuel h

/-- Witness for C10 at chunksize 0: invocation succeeds, consumption
fails with ValueError and zero network calls. -/
theorem C10_lazy_invocation_witness :
    iter_chunked_call (fun _ _ => (ChunkBody.notMapping : ChunkBody Int)) 0 =
      Except.ok ⟨fun _ _ => ChunkBody.notMapping, 0⟩
    ∧ (ChunkedGenerator.mk (fun _ _ => (ChunkBody.notMapping : ChunkBody Int)) 0).consume 3 =
      ⟨[], 0, Outcome.err PyErr.valueError⟩ := by
  have h := C10_lazy_invocation Int (fun _ _ => ChunkBody.notMapping) 0
  exact ⟨h.1, h.2 3 (Or.inl (by decide))⟩
